import Mathlib

/-!
Verification of the multi-agent extraction pipeline in `main.py` (Telegram
household-register extraction bot).  The pipeline is embedded shallowly:

* the Structured-Data Parser models `json.loads(text.replace("```json", "").replace("```", ""))`
  used identically at the end of `gemini_browser_extract` (line 95) and
  `gemini_api_extract` (lines 124-125);
* the Document/Page pipeline of `handle_document` (lines 197-243) is embedded
  as a pure state-passing function over an explicit environment describing the
  outcomes of the external agent calls.

Python strings are modelled as `List Char` in the parser section, and as Lean
`String` in the event section.  The backtick and brace characters are written
with `\x60`, `\x7b`, `\x7d` escapes throughout.
-/

/-! ### Structured-data values (the result of `json.loads`)

Numbers are modelled as integers only (the source documents use integral house
numbers and string fields; no theorem below depends on float or `\uXXXX`
behaviour of Python json). -/

inductive Json where
  | null
  | bool (b : Bool)
  | num (n : Int)
  | str (s : List Char)
  | arr (xs : List Json)
  | obj (kvs : List (List Char × Json))

/-- Intermediate results of the recursive-descent parser. -/
inductive PRes where
  | v (j : Json)
  | items (l : List Json)
  | kvs (l : List (List Char × Json))

inductive PMode where
  | val
  | arrItems
  | objItems

/-- Whitespace skipping, as Python json does between tokens. -/
def skipWs : List Char → List Char
  | c :: cs =>
    if c = ' ' ∨ c = '\n' ∨ c = '\t' ∨ c = '\r' then skipWs cs else c :: cs
  | [] => []

/-- String-literal body: consumes characters up to the closing quote,
decoding the simple escapes (`\uXXXX` escapes are not modelled). -/
def escChar (c : Char) : Option Char :=
  if c = '"' then some '"'
  else if c = '\\' then some '\\'
  else if c = '/' then some '/'
  else if c = 'n' then some '\n'
  else if c = 't' then some '\t'
  else if c = 'r' then some '\r'
  else none

def parseStrChars : List Char → Option (List Char × List Char)
  | [] => none
  | '"' :: rest => some ([], rest)
  | '\\' :: [] => none
  | '\\' :: e :: rest =>
    match escChar e, parseStrChars rest with
    | some c, some (s, r) => some (c :: s, r)
    | _, _ => none
  | c :: rest =>
    match parseStrChars rest with
    | some (s, r) => some (c :: s, r)
    | none => none

def expectLit (lit : List Char) (s : List Char) : Option (List Char) :=
  if lit.isPrefixOf s then some (s.drop lit.length) else none

def digitsVal (ds : List Char) : Nat :=
  ds.foldl (fun a c => 10 * a + (c.toNat - 48)) 0

def parseNum (s : List Char) : Option (Json × List Char) :=
  match s with
  | '-' :: rest =>
    let ds := rest.takeWhile Char.isDigit
    let r := rest.dropWhile Char.isDigit
    if ds = [] then none else some (Json.num (-(digitsVal ds : Int)), r)
  | _ =>
    let ds := s.takeWhile Char.isDigit
    let r := s.dropWhile Char.isDigit
    if ds = [] then none else some (Json.num (digitsVal ds : Int), r)

/-- Fuel-indexed recursive-descent parser for json values, array items and
object members (one function so that the recursion is structural on the fuel
and reduces in the kernel). -/
def parseStep : Nat → PMode → List Char → Option (PRes × List Char)
  | 0, _, _ => none
  | f + 1, PMode.val, s =>
    match skipWs s with
    | '"' :: cs => (parseStrChars cs).map (fun p => (PRes.v (Json.str p.1), p.2))
    | '[' :: cs =>
      match skipWs cs with
      | ']' :: r => some (PRes.v (Json.arr []), r)
      | _ =>
        match parseStep f PMode.arrItems cs with
        | some (PRes.items l, r) => some (PRes.v (Json.arr l), r)
        | _ => none
    | '\x7b' :: cs =>
      match skipWs cs with
      | '\x7d' :: r => some (PRes.v (Json.obj []), r)
      | _ =>
        match parseStep f PMode.objItems cs with
        | some (PRes.kvs l, r) => some (PRes.v (Json.obj l), r)
        | _ => none
    | 'n' :: cs => (expectLit ['u', 'l', 'l'] cs).map (fun r => (PRes.v Json.null, r))
    | 't' :: cs => (expectLit ['r', 'u', 'e'] cs).map (fun r => (PRes.v (Json.bool true), r))
    | 'f' :: cs => (expectLit ['a', 'l', 's', 'e'] cs).map (fun r => (PRes.v (Json.bool false), r))
    | c :: cs =>
      if c = '-' ∨ c.isDigit then (parseNum (c :: cs)).map (fun p => (PRes.v p.1, p.2))
      else none
    | [] => none
  | f + 1, PMode.arrItems, s =>
    match parseStep f PMode.val s with
    | some (PRes.v j, r) =>
      match skipWs r with
      | ',' :: r2 =>
        match parseStep f PMode.arrItems r2 with
        | some (PRes.items l, r3) => some (PRes.items (j :: l), r3)
        | _ => none
      | ']' :: r2 => some (PRes.items [j], r2)
      | _ => none
    | _ => none
  | f + 1, PMode.objItems, s =>
    match skipWs s with
    | '"' :: cs =>
      match parseStrChars cs with
      | some (k, r) =>
        match skipWs r with
        | ':' :: r2 =>
          match parseStep f PMode.val r2 with
          | some (PRes.v j, r3) =>
            match skipWs r3 with
            | ',' :: r4 =>
              match parseStep f PMode.objItems r4 with
              | some (PRes.kvs l, r5) => some (PRes.kvs ((k, j) :: l), r5)
              | _ => none
            | '\x7d' :: r4 => some (PRes.kvs [(k, j)], r4)
            | _ => none
          | _ => none
        | _ => none
      | none => none
    | _ => none

/-- Model of Python `json.loads`: parse one value, demand only trailing
whitespace, otherwise fail (`None` stands for a raised decode error). -/
def jsonParse (s : List Char) : Option Json :=
  match parseStep (2 * s.length + 4) PMode.val s with
  | some (PRes.v j, r) => if skipWs r = [] then some j else none
  | _ => none

/-! ### Fence stripping: `text.replace("```json", "").replace("```", "")` -/

/-- The backtick character. -/
def btick : Char := '\x60'

def fenceJson : List Char := [btick, btick, btick, 'j', 's', 'o', 'n']

def fenceBare : List Char := [btick, btick, btick]

/-- Python `str.replace(pat, "")`: remove all non-overlapping occurrences of
`pat`, scanning left to right.  Fuel-indexed (fuel = input length suffices for
any non-empty pattern) so that the function reduces in the kernel. -/
def stripSubFuel (pat : List Char) : Nat → List Char → List Char
  | 0, s => s
  | _ + 1, [] => []
  | f + 1, c :: cs =>
    if pat.isPrefixOf (c :: cs) then stripSubFuel pat f ((c :: cs).drop pat.length)
    else c :: stripSubFuel pat f cs

def stripSub (pat s : List Char) : List Char := stripSubFuel pat s.length s

/-- `text.replace("```json", "").replace("```", "")` from lines 95 and 124. -/
def stripFences (s : List Char) : List Char := stripSub fenceBare (stripSub fenceJson s)

/-- The Structured-Data Parser of the pipeline:
`json.loads(text.replace("```json", "").replace("```", ""))`.
`none` models a raised decode error (`MalformedOutputError` in the spec). -/
def parse (raw : List Char) : Option Json := jsonParse (stripFences raw)

/-! ### The pipeline of `handle_document` (lines 197-243)

The external side effects of one run are captured by an environment:

* `PageBehavior` fixes, for one page, the outcome of each external call the
  loop body can make: the primary browser agent (`gemini_browser_extract`,
  its browser automation and the final `json.loads` combined — a decode error
  is raised and caught exactly like any other browser error), the fallback API
  agent (`gemini_api_extract`, likewise including its `json.loads`), the
  verification agent split into the part *before* its `try` block
  (`playwright`/`chromium.launch`/`new_page`, whose failures are not caught
  inside `chatgpt_verify`) and the part *inside* its `try` block, and whether
  the per-record Telegram sends of `send_formatted_output` succeed.
* `RunBehavior` fixes the outcome of the PDF download and of
  `convert_from_path`.

`St` is the observable state of a run: sink events emitted (in order), the
per-event delivery outcome, the record lists handed to the requester (in
order; this is the final aggregate), the image files currently on disk
(`page_i.jpg` is tracked by its index `i`), and whether `temp.pdf` exists.
An `Option String` result component models a raised exception escaping the
modelled function (`none` = returned normally). -/

/-- Sink messages, one constructor per `send_log` call site of the source;
`text` below renders the exact Python message. -/
inductive Msg where
  | pdfReceived
  | processingPage (n : Nat)
  | agentALaunch
  | agentALoginOk
  | extractionSourceWeb
  | agentAFailed (cause : String)
  | agentBSwitch
  | extractionSourceApi
  | fatalApiFailed (cause : String)
  | agentCLaunch
  | verifyFailed (cause : String)
  | sendingEntries (n : Nat)
  | allPagesDone
  | criticalError (detail : String)
deriving DecidableEq

/-- The f-string rendered at each `send_log` call site.  For `criticalError`
the detail stands for `traceback.format_exc()`, which contains the message of
the escaped exception. -/
def Msg.text : Msg → String
  | Msg.pdfReceived => "📥 PDF Received. Starting Sequence..."
  | Msg.processingPage n => "--- Processing Page " ++ toString n ++ " ---"
  | Msg.agentALaunch => "🔹 Agent A: Launching Gemini Web Browser..."
  | Msg.agentALoginOk => "🔹 Agent A: Login Success!"
  | Msg.extractionSourceWeb => "✅ Extraction Source: Gemini Web"
  | Msg.agentAFailed cause => "⚠️ Agent A Failed: " ++ cause
  | Msg.agentBSwitch => "🔸 Agent B: Switching to Gemini API..."
  | Msg.extractionSourceApi => "✅ Extraction Source: Gemini API"
  | Msg.fatalApiFailed cause => "❌ FATAL: API also failed. Skipping page. " ++ cause
  | Msg.agentCLaunch => "🧠 Agent C: Sending to ChatGPT Pro for Verification..."
  | Msg.verifyFailed cause =>
    "⚠️ ChatGPT Verification Failed: " ++ cause ++ ". Using original data."
  | Msg.sendingEntries n => "📤 Sending " ++ toString n ++ " extracted entries..."
  | Msg.allPagesDone => "🏁 All pages processed successfully."
  | Msg.criticalError detail => "CRITICAL SYSTEM ERROR: " ++ detail

/-- One event routed to the Progress/Error Sink: the message plus the
`is_error` flag passed to `send_log` (the source has only these two
severities; spec warnings are `is_error=True` events whose text carries the
warning marker). -/
structure Event where
  msg : Msg
  isError : Bool
deriving DecidableEq

/-- Observable state of one `handle_document` run. -/
structure St where
  events : List Event
  delivered : List Bool
  sent : List (List Json)
  images : List Nat
  pdf : Bool

def initSt : St := ⟨[], [], [], [], false⟩

structure PageBehavior where
  primary : Except String (List Json)
  secondary : Except String (List Json)
  verifyPre : Option String
  verifyBody : Except String (List Json)
  outputOk : Bool

structure RunBehavior where
  downloadOk : Bool
  conversion : Except String (List PageBehavior)

/-- Python `html.escape` (quote=True), applied by `send_log` to the message. -/
def escHtml (c : Char) : List Char :=
  if c = '&' then ['&', 'a', 'm', 'p', ';']
  else if c = '<' then ['&', 'l', 't', ';']
  else if c = '>' then ['&', 'g', 't', ';']
  else if c = '"' then ['&', 'q', 'u', 'o', 't', ';']
  else if c = '\'' then ['&', '#', 'x', '2', '7', ';']
  else [c]

def htmlEscape (s : List Char) : List Char := (s.map escHtml).flatten

/-- `context.bot.send_message` inside `send_log`: `d` decides, from the
delivered text, whether Telegram delivery succeeds; an `error` is a raised
delivery exception. -/
def bot_send_message (ok : Bool) : Except String Unit :=
  if ok then Except.ok () else Except.error "sink delivery failed"

/-- Body of `send_log`s `try` block (lines 41-49): build the escaped,
truncated `<code>` message and deliver it.  Result `true`/`false` records
whether delivery happened; an `error` escapes the `try`. -/
def send_log_body (d : String → Bool) (message : String) (is_error : Bool) :
    Except String Bool :=
  let emoji := if is_error then "❌" else "📝"
  let clean := String.mk ((htmlEscape message.toList).take 3000)
  let text := emoji ++ " <code>" ++ clean ++ "</code>"
  match bot_send_message (d text) with
  | Except.ok _ => Except.ok true
  | Except.error e => Except.error e

/-- `send_log` (lines 39-51): any delivery failure is caught and logged
locally (`logger.error`); the function always returns normally. -/
def send_log (d : String → Bool) (message : String) (is_error : Bool) : Bool :=
  match send_log_body d message is_error with
  | Except.ok b => b
  | Except.error _ => false

/-- One `await send_log(context, ...)` call: records the event and its
delivery outcome.  `send_log` never raises, so this always returns a state. -/
def emit (d : String → Bool) (st : St) (m : Msg) (isErr : Bool) : St :=
  { st with
    events := st.events ++ [⟨m, isErr⟩]
    delivered := st.delivered ++ [send_log d (Msg.text m) isErr] }

/-- `gemini_browser_extract` (lines 54-99): logs the launch, then either
returns the parsed records (logging the login progress event of the success
path; intermediate progress events of failing runs depend on where the
environment fails and are elided) or raises
`Exception(f"Gemini Browser Failed: {str(e)[:50]}")` after closing the
browser. -/
def gemini_browser_extract (pb : PageBehavior) (d : String → Bool) (st : St) :
    St × Except String (List Json) :=
  let st1 := emit d st Msg.agentALaunch false
  match pb.primary with
  | Except.ok l => (emit d st1 Msg.agentALoginOk false, Except.ok l)
  | Except.error e => (st1, Except.error ("Gemini Browser Failed: " ++ e.take 50))

/-- `gemini_api_extract` (lines 102-125): logs the switch, then returns the
parsed records or lets the underlying library/decode exception propagate. -/
def gemini_api_extract (pb : PageBehavior) (d : String → Bool) (st : St) :
    St × Except String (List Json) :=
  (emit d st Msg.agentBSwitch false, pb.secondary)

/-- `chatgpt_verify` (lines 128-175): logs the start; a failure of the
playwright/browser setup *before* the `try` block propagates to the caller;
inside the `try`, success returns the corrected records and any failure is
caught, logged as a warning, and the original `initial_data` is returned. -/
def chatgpt_verify (pb : PageBehavior) (initial_data : List Json)
    (d : String → Bool) (st : St) : St × Except String (List Json) :=
  let st1 := emit d st Msg.agentCLaunch false
  match pb.verifyPre with
  | some e => (st1, Except.error e)
  | none =>
    match pb.verifyBody with
    | Except.ok corrected => (st1, Except.ok corrected)
    | Except.error e => (emit d st1 (Msg.verifyFailed e) true, Except.ok initial_data)

/-- `send_formatted_output` (lines 178-194): logs the count, then sends one
message per record (modelled atomically: the whole page output is appended to
`sent`, or a Telegram send raises — these direct sends are not wrapped in any
`try`). -/
def send_formatted_output (pb : PageBehavior) (data_list : List Json)
    (d : String → Bool) (st : St) : St × Option String :=
  let st1 := emit d st (Msg.sendingEntries data_list.length) false
  if pb.outputOk then ({ st1 with sent := st1.sent ++ [data_list] }, none)
  else (st1, some "Telegram send failed")

/-- Steps 2-3 of the loop body (lines 230-236): verify, output, and remove
the page image.  A raised exception (`some e`) escapes the loop body. -/
def afterExtract (d : String → Bool) (pb : PageBehavior) (i : Nat)
    (raw : List Json) (st : St) : St × Option String :=
  match chatgpt_verify pb raw d st with
  | (st1, Except.error e) => (st1, some e)
  | (st1, Except.ok final) =>
    match send_formatted_output pb final d st1 with
    | (st2, some e) => (st2, some e)
    | (st2, none) => ({ st2 with images := st2.images.erase i }, none)

/-- One iteration of the page loop (lines 209-236): save the image, log the
page header, try the primary agent, fall back to the secondary on failure
(both failures are caught); if both fail, log the fatal event and `continue`
(returning normally — note the image is then not removed); otherwise verify
and output.  `some e` models an exception escaping the iteration. -/
def pageStep (d : String → Bool) (i : Nat) (pb : PageBehavior) (st : St) :
    St × Option String :=
  let stA := emit d { st with images := st.images ++ [i] } (Msg.processingPage (i + 1)) false
  match gemini_browser_extract pb d stA with
  | (st1, Except.ok raw) => afterExtract d pb i raw (emit d st1 Msg.extractionSourceWeb false)
  | (st1, Except.error e) =>
    let st2 := emit d st1 (Msg.agentAFailed e) true
    match gemini_api_extract pb d st2 with
    | (st3, Except.ok raw) => afterExtract d pb i raw (emit d st3 Msg.extractionSourceApi false)
    | (st3, Except.error e2) => (emit d st3 (Msg.fatalApiFailed e2) true, none)

/-- The `for i, img in enumerate(images)` loop: sequential, stopping early
only when an exception escapes an iteration. -/
def runPages (d : String → Bool) : Nat → List PageBehavior → St → St × Option String
  | _, [], st => (st, none)
  | i, pb :: rest, st =>
    match pageStep d i pb st with
    | (st', none) => runPages d (i + 1) rest st'
    | (st', some e) => (st', some e)

/-- `handle_document` (lines 197-243).  Unauthorized senders are silently
ignored before anything happens.  Then: receive log, PDF download (an
exception there escapes the handler — the `try` has not been entered), and
the `try/except/finally`: page conversion and the page loop; *any* exception
inside the `try` is caught by the blanket `except` and logged as a critical
error; the `finally` removes `temp.pdf` if present.  The `Option String`
component is an exception escaping the handler itself. -/
def handle_document (userId allowed : Int) (rb : RunBehavior)
    (d : String → Bool) : St × Option String :=
  if userId ≠ allowed then (initSt, none)
  else
    let st0 := emit d initSt Msg.pdfReceived false
    if rb.downloadOk = false then (st0, some "download failed")
    else
      let st1 : St := { st0 with pdf := true }
      match rb.conversion with
      | Except.error e => ({ emit d st1 (Msg.criticalError e) true with pdf := false }, none)
      | Except.ok pbs =>
        match runPages d 0 pbs st1 with
        | (st2, none) => ({ emit d st2 Msg.allPagesDone false with pdf := false }, none)
        | (st2, some e) => ({ emit d st2 (Msg.criticalError e) true with pdf := false }, none)

/-! ### Derived descriptions used to state the claims -/

/-- A page iteration on which no unexpected defect is injected: the
verification setup does not raise and the output sends succeed. -/
def pageNormal (pb : PageBehavior) : Prop :=
  pb.verifyPre = none ∧ pb.outputOk = true

/-- What verification leaves of candidate records `l` on a defect-free page:
the corrected list, or `l` itself when the in-`try` verification failed. -/
def verifyOut (pb : PageBehavior) (l : List Json) : List Json :=
  match pb.verifyBody with
  | Except.ok c => c
  | Except.error _ => l

/-- The record list a defect-free page contributes to the output: the
(possibly verification-adjusted) primary records, else the (possibly
verification-adjusted) secondary records, else nothing. -/
def pageRecords (pb : PageBehavior) : Option (List Json) :=
  match pb.primary with
  | Except.ok l => some (verifyOut pb l)
  | Except.error _ =>
    match pb.secondary with
    | Except.ok l => some (verifyOut pb l)
    | Except.error _ => none

/-- Recognizes the per-page header events, used to state processing order. -/
def isPageMark : Msg → Bool
  | Msg.processingPage _ => true
  | _ => false

/-- Equality of run states up to sink-delivery outcomes. -/
def sameCore (s t : St) : Prop :=
  s.events = t.events ∧ s.sent = t.sent ∧ s.images = t.images ∧ s.pdf = t.pdf

/-- All sink deliveries succeed (a concrete delivery environment). -/
def dTrue : String → Bool := fun _ => true

/-! ### Concrete environments used by counterexamples and witnesses -/

def pbVerifyCrash : PageBehavior :=
  ⟨Except.ok [], Except.ok [], some "BrowserType.launch: executable not found", Except.ok [],
    true⟩

def pbPlain : PageBehavior :=
  ⟨Except.ok [Json.null], Except.ok [], none, Except.error "timeout", true⟩

def pbBothFail : PageBehavior :=
  ⟨Except.error "login timeout", Except.error "quota exceeded", none, Except.ok [], true⟩

def rbCrashThenPage : RunBehavior := ⟨true, Except.ok [pbVerifyCrash, pbPlain]⟩

def rbOneFailingPage : RunBehavior := ⟨true, Except.ok [pbBothFail]⟩

def rbEmpty : RunBehavior := ⟨true, Except.ok []⟩

/-! ### Lemmas about fence stripping -/

theorem isPrefixOf_append_self (l r : List Char) : l.isPrefixOf (l ++ r) = true := by
  induction l with
  | nil => simp [List.isPrefixOf]
  | cons c cs ih => simp [List.isPrefixOf, ih]

theorem drop_length_append (l r : List Char) : (l ++ r).drop l.length = r := by
  induction l with
  | nil => simp
  | cons c cs ih => simp [ih]

/-- Unfolding step of `stripSubFuel` when the pattern matches at the head. -/
theorem stripSubFuel_head_match (pat r : List Char) (hne : pat ≠ []) (f : Nat) :
    stripSubFuel pat (f + 1) (pat ++ r) = stripSubFuel pat f r := by
  cases pat with
  | nil => exact absurd rfl hne
  | cons p ps =>
    have h1 : (p :: ps).isPrefixOf ((p :: ps) ++ r) = true := isPrefixOf_append_self _ _
    have h2 : ((p :: ps) ++ r).drop (p :: ps).length = r := drop_length_append _ _
    simp only [List.cons_append] at h1 h2 ⊢
    simp [stripSubFuel, h1, h2]

/-- `stripSubFuel` walks over a block of characters none of which can start the
pattern (patterns used here start with a backtick). -/
theorem stripSubFuel_skip (pat : List Char) (hp : pat.head? = some btick) :
    ∀ (s : List Char), (∀ c ∈ s, c ≠ btick) → ∀ (g : Nat) (t : List Char),
      stripSubFuel pat (s.length + g) (s ++ t) = s ++ stripSubFuel pat g t := by
  intro s
  induction s with
  | nil => intro _ g t; simp
  | cons c cs ih =>
    intro hc g t
    have hcb : c ≠ btick := hc c (by simp)
    obtain ⟨pat', hpat⟩ : ∃ pat', pat = btick :: pat' := by
      cases pat with
      | nil => simp at hp
      | cons a as => simp at hp; exact ⟨as, by rw [hp]⟩
    have hnp : pat.isPrefixOf (c :: (cs ++ t)) = false := by
      subst hpat
      simp [List.isPrefixOf]
      intro h
      exact absurd h.symm hcb
    have hlen : (c :: cs).length + g = (cs.length + g) + 1 := by
      simp [Nat.succ_add]
    rw [hlen]
    simp only [List.cons_append, stripSubFuel, List.append_eq, hnp, Bool.false_eq_true,
      if_false]
    rw [ih (fun x hx => hc x (by simp [hx])) g t]

/-- Stripping both fence patterns from a fenced, backtick-free payload
recovers exactly the payload. -/
theorem stripFences_wrapped (s : List Char) (h : ∀ c ∈ s, c ≠ btick) :
    stripFences (fenceJson ++ s ++ fenceBare) = s := by
  have h1 : stripSub fenceJson (fenceJson ++ s ++ fenceBare) = s ++ fenceBare := by
    unfold stripSub
    rw [List.append_assoc]
    have hL : (fenceJson ++ (s ++ fenceBare)).length = (s.length + 9) + 1 := by
      simp [fenceJson, fenceBare]
    rw [hL, stripSubFuel_head_match fenceJson (s ++ fenceBare) (by simp [fenceJson]) _]
    rw [stripSubFuel_skip fenceJson rfl s h 9 fenceBare]
    have hc : stripSubFuel fenceJson 9 fenceBare = fenceBare := by decide
    rw [hc]
  have h2 : stripSub fenceBare (s ++ fenceBare) = s := by
    unfold stripSub
    have hL : (s ++ fenceBare).length = s.length + 3 := by simp [fenceBare]
    rw [hL, stripSubFuel_skip fenceBare rfl s h 3 fenceBare]
    have hc : stripSubFuel fenceBare 3 fenceBare = [] := by decide
    rw [hc, List.append_nil]
  unfold stripFences
  rw [h1, h2]

example : jsonParse ('[' :: '1' :: ']' :: []) = some (Json.arr [Json.num 1]) := rfl
example : parse ('\x7b' :: '\x7d' :: []) = some (Json.obj []) := rfl
example : parse ('n' :: 'o' :: 't' :: []) = none := rfl
example :
    jsonParse (String.toList " [ \x7b \"a\" : 1 , \"b\" : [true, null] \x7d , -2 ] ")
      = some (Json.arr [Json.obj [(['a'], Json.num 1), (['b'], Json.arr [Json.bool true, Json.null])], Json.num (-2)]) := rfl
example :
    parse (fenceJson ++ String.toList "[\"x\"]" ++ fenceBare)
      = some (Json.arr [Json.str ['x']]) := rfl

/-! ### Helper lemmas about the page loop -/

/-- Every path through one loop iteration only appends sink events. -/
theorem pageStep_events_extend (d : String → Bool) (i : Nat) (pb : PageBehavior) (st : St) :
    ∃ t, (pageStep d i pb st).1.events = st.events ++ t := by
  cases hp : pb.primary <;> cases hv : pb.verifyPre <;> cases hb : pb.verifyBody <;>
    cases ho : pb.outputOk <;> cases hs : pb.secondary <;>
    simp [pageStep, afterExtract, gemini_browser_extract, gemini_api_extract,
      chatgpt_verify, send_formatted_output, emit, hp, hv, hb, ho, hs]

/-- The whole loop only appends sink events. -/
theorem runPages_events_extend (d : String → Bool) :
    ∀ (pbs : List PageBehavior) (i : Nat) (st : St),
      ∃ t, (runPages d i pbs st).1.events = st.events ++ t := by
  intro pbs
  induction pbs with
  | nil => intro i st; exact ⟨[], by simp [runPages]⟩
  | cons pb rest ih =>
    intro i st
    obtain ⟨t1, ht1⟩ := pageStep_events_extend d i pb st
    rcases hps : pageStep d i pb st with ⟨st', o⟩
    rw [hps] at ht1
    simp only at ht1
    cases o with
    | none =>
      obtain ⟨t2, ht2⟩ := ih (i + 1) st'
      exact ⟨t1 ++ t2, by simp [runPages, hps, ht2, ht1, List.append_assoc]⟩
    | some e => exact ⟨t1, by simp [runPages, hps, ht1]⟩

/-- A defect-free page iteration returns normally, contributes exactly
`pageRecords pb`, and adds exactly one page-header event. -/
theorem pageStep_normal (d : String → Bool) (i : Nat) (pb : PageBehavior) (st : St)
    (h : pageNormal pb) :
    (pageStep d i pb st).2 = none
    ∧ (pageStep d i pb st).1.sent = st.sent ++ (pageRecords pb).toList
    ∧ ((pageStep d i pb st).1.events.map Event.msg).filter isPageMark
        = ((st.events.map Event.msg).filter isPageMark) ++ [Msg.processingPage (i + 1)] := by
  obtain ⟨hv, ho⟩ := h
  cases hp : pb.primary <;> cases hb : pb.verifyBody <;> cases hs : pb.secondary <;>
    simp [pageStep, afterExtract, gemini_browser_extract, gemini_api_extract,
      chatgpt_verify, send_formatted_output, emit, pageRecords, verifyOut, isPageMark,
      hp, hv, hb, ho, hs]

/-- A run of defect-free pages returns normally, emits exactly the in-order
page headers, and aggregates exactly the in-order page contributions. -/
theorem runPages_normal (d : String → Bool) :
    ∀ (pbs : List PageBehavior) (i : Nat) (st : St), (∀ pb ∈ pbs, pageNormal pb) →
      (runPages d i pbs st).2 = none
      ∧ (runPages d i pbs st).1.sent = st.sent ++ pbs.filterMap pageRecords
      ∧ ((runPages d i pbs st).1.events.map Event.msg).filter isPageMark
          = ((st.events.map Event.msg).filter isPageMark)
            ++ (List.range pbs.length).map (fun j => Msg.processingPage (i + j + 1)) := by
  intro pbs
  induction pbs with
  | nil => intro i st _; simp [runPages]
  | cons pb rest ih =>
    intro i st h
    obtain ⟨h2, h3, h4⟩ := pageStep_normal d i pb st (h pb (by simp))
    rcases hps : pageStep d i pb st with ⟨st', o⟩
    rw [hps] at h2 h3 h4
    simp only at h2 h3 h4
    subst h2
    obtain ⟨g2, g3, g4⟩ := ih (i + 1) st' (fun q hq => h q (by simp [hq]))
    refine ⟨by simp [runPages, hps, g2], ?_, ?_⟩
    · rw [runPages]
      rw [hps]
      simp only
      rw [g3, h3, List.append_assoc]
      congr 1
      cases hpr : pageRecords pb <;> simp [List.filterMap_cons, hpr]
    · rw [runPages]
      rw [hps]
      simp only
      rw [g4, h4, List.append_assoc]
      congr 1
      simp only [List.length_cons]
      rw [List.range_succ_eq_map]
      simp only [Nat.add_zero, List.map_cons, List.map_map, List.singleton_append]
      congr 1
      apply List.map_congr_left
      intro j _
      simp only [Function.comp_apply]
      congr 1
      omega

/-! ### Sink-delivery independence helpers -/

theorem sameCore_refl (s : St) : sameCore s s := ⟨rfl, rfl, rfl, rfl⟩

/-- Emitting the same event under different delivery environments changes
nothing but the recorded delivery outcomes. -/
theorem emit_core (d d' : String → Bool) (m : Msg) (b : Bool) (s t : St)
    (h : sameCore s t) : sameCore (emit d s m b) (emit d' t m b) := by
  obtain ⟨h1, h2, h3, h4⟩ := h
  exact ⟨by simp [emit, h1], by simp [emit, h2], by simp [emit, h3], by simp [emit, h4]⟩

theorem sameCore_withPdf (s t : St) (b : Bool) (h : sameCore s t) :
    sameCore { s with pdf := b } { t with pdf := b } := by
  obtain ⟨h1, h2, h3, h4⟩ := h
  exact ⟨h1, h2, h3, rfl⟩

/-- One loop iteration is oblivious to sink-delivery outcomes. -/
theorem pageStep_core (d d' : String → Bool) (i : Nat) (pb : PageBehavior) (s t : St)
    (h : sameCore s t) :
    sameCore (pageStep d i pb s).1 (pageStep d' i pb t).1 ∧
      (pageStep d i pb s).2 = (pageStep d' i pb t).2 := by
  obtain ⟨h1, h2, h3, h4⟩ := h
  cases hp : pb.primary <;> cases hv : pb.verifyPre <;> cases hb : pb.verifyBody <;>
    cases ho : pb.outputOk <;> cases hs : pb.secondary <;>
    simp [pageStep, afterExtract, gemini_browser_extract, gemini_api_extract,
      chatgpt_verify, send_formatted_output, emit, sameCore, hp, hv, hb, ho, hs,
      h1, h2, h3, h4]

/-- The page loop is oblivious to sink-delivery outcomes. -/
theorem runPages_core (d d' : String → Bool) :
    ∀ (pbs : List PageBehavior) (i : Nat) (s t : St), sameCore s t →
      sameCore (runPages d i pbs s).1 (runPages d' i pbs t).1 ∧
        (runPages d i pbs s).2 = (runPages d' i pbs t).2 := by
  intro pbs
  induction pbs with
  | nil => intro i s t h; exact ⟨h, rfl⟩
  | cons pb rest ih =>
    intro i s t h
    obtain ⟨hc, he⟩ := pageStep_core d d' i pb s t h
    rcases hA : pageStep d i pb s with ⟨s1, o1⟩
    rcases hB : pageStep d' i pb t with ⟨t1, o2⟩
    rw [hA, hB] at hc he
    simp only at hc he
    subst he
    cases o1 with
    | none =>
      obtain ⟨gc, ge⟩ := ih (i + 1) s1 t1 hc
      exact ⟨by simp [runPages, hA, hB, gc], by simp [runPages, hA, hB, ge]⟩
    | some e => exact ⟨by simp [runPages, hA, hB, hc], by simp [runPages, hA, hB]⟩

/-- The whole handler is oblivious to sink-delivery outcomes. -/
theorem handle_document_core (u a : Int) (rb : RunBehavior) (d d' : String → Bool) :
    sameCore (handle_document u a rb d).1 (handle_document u a rb d').1 ∧
      (handle_document u a rb d).2 = (handle_document u a rb d').2 := by
  by_cases hu : u ≠ a
  · simp [handle_document, hu, sameCore_refl]
  · have hst0 : sameCore (emit d initSt Msg.pdfReceived false)
        (emit d' initSt Msg.pdfReceived false) :=
      emit_core d d' Msg.pdfReceived false initSt initSt (sameCore_refl initSt)
    cases hdl : rb.downloadOk with
    | false =>
      have hd1 : handle_document u a rb d
          = (emit d initSt Msg.pdfReceived false, some "download failed") := by
        simp [handle_document, hu, hdl]
      have hd2 : handle_document u a rb d'
          = (emit d' initSt Msg.pdfReceived false, some "download failed") := by
        simp [handle_document, hu, hdl]
      rw [hd1, hd2]
      exact ⟨hst0, rfl⟩
    | true =>
      have hst1 : sameCore { emit d initSt Msg.pdfReceived false with pdf := true }
          { emit d' initSt Msg.pdfReceived false with pdf := true } :=
        sameCore_withPdf _ _ true hst0
      rcases hcv : rb.conversion with e | pbs
      · have hd1 : handle_document u a rb d
            = ({ emit d { emit d initSt Msg.pdfReceived false with pdf := true }
                  (Msg.criticalError e) true with pdf := false }, none) := by
          simp [handle_document, hu, hdl, hcv]
        have hd2 : handle_document u a rb d'
            = ({ emit d' { emit d' initSt Msg.pdfReceived false with pdf := true }
                  (Msg.criticalError e) true with pdf := false }, none) := by
          simp [handle_document, hu, hdl, hcv]
        rw [hd1, hd2]
        exact ⟨sameCore_withPdf _ _ false
          (emit_core d d' (Msg.criticalError e) true _ _ hst1), rfl⟩
      · obtain ⟨gc, ge⟩ := runPages_core d d' pbs 0 _ _ hst1
        rcases hA : runPages d 0 pbs { emit d initSt Msg.pdfReceived false with pdf := true }
          with ⟨s2, o1⟩
        rcases hB : runPages d' 0 pbs { emit d' initSt Msg.pdfReceived false with pdf := true }
          with ⟨t2, o2⟩
        rw [hA, hB] at gc ge
        simp only at gc ge
        subst ge
        cases o1 with
        | none =>
          have hd1 : handle_document u a rb d
              = ({ emit d s2 Msg.allPagesDone false with pdf := false }, none) := by
            simp [handle_document, hu, hdl, hcv, hA]
          have hd2 : handle_document u a rb d'
              = ({ emit d' t2 Msg.allPagesDone false with pdf := false }, none) := by
            simp [handle_document, hu, hdl, hcv, hB]
          rw [hd1, hd2]
          exact ⟨sameCore_withPdf _ _ false
            (emit_core d d' Msg.allPagesDone false _ _ gc), rfl⟩
        | some e =>
          have hd1 : handle_document u a rb d
              = ({ emit d s2 (Msg.criticalError e) true with pdf := false }, none) := by
            simp [handle_document, hu, hdl, hcv, hA]
          have hd2 : handle_document u a rb d'
              = ({ emit d' t2 (Msg.criticalError e) true with pdf := false }, none) := by
            simp [handle_document, hu, hdl, hcv, hB]
          rw [hd1, hd2]
          exact ⟨sameCore_withPdf _ _ false
            (emit_core d d' (Msg.criticalError e) true _ _ gc), rfl⟩

/-! ### Claim theorems -/

/-- Claim C6, counterexample.  The claim says a raw text whose top-level shape
is not a sequence fails with `MalformedOutputError`; but the code is a bare
`json.loads` call with no shape check, so the well-formed non-sequence text
consisting of an empty object parses successfully and is returned. -/
theorem c6_counterexample : parse ['\x7b', '\x7d'] = some (Json.obj []) := rfl

/-- Claim C6, amended: for text that is valid structured data wrapped in
code-fence markers (the payload itself containing no backtick), the parser
returns exactly the result of parsing the unwrapped data, and syntactically
invalid text fails; but a well-formed non-sequence top level is not rejected
(see the counterexample). -/
theorem c6_fenced_equiv_and_malformed_fails (s : List Char) (h : ∀ c ∈ s, c ≠ btick) :
    parse (fenceJson ++ s ++ fenceBare) = jsonParse s
    ∧ parse ['n', 'o', 't', ' ', 'j', 's', 'o', 'n'] = none := by
  constructor
  · unfold parse
    rw [stripFences_wrapped s h]
  · rfl

/-- Witness for C6 at the concrete payload `[1]`. -/
theorem c6_fenced_equiv_witness :
    (∀ c ∈ (['[', '1', ']'] : List Char), c ≠ btick)
    ∧ (parse (fenceJson ++ ['[', '1', ']'] ++ fenceBare) = jsonParse ['[', '1', ']']
       ∧ parse ['n', 'o', 't', ' ', 'j', 's', 'o', 'n'] = none) :=
  ⟨by decide, c6_fenced_equiv_and_malformed_fails ['[', '1', ']'] (by decide)⟩

/-- Claim C2, counterexample.  The claim says verification never propagates a
failure to its caller; but in `chatgpt_verify` the playwright start, browser
launch and page creation happen *before* the `try` block (lines 132-134), so
a browser-launch failure escapes `chatgpt_verify` as a raised exception. -/
theorem c2_counterexample :
    (chatgpt_verify pbVerifyCrash [] dTrue initSt).2
      = Except.error "BrowserType.launch: executable not found" := rfl

/-- Claim C2, amended: for any internal failure occurring inside the `try`
block of the verification agent (login, upload, timeout, malformed response),
the failure is caught, a warning event is emitted, and the original candidate
records are returned unchanged — but a failure of the browser setup before
the `try` block propagates to the caller (see the counterexample). -/
theorem c2_verify_degrades_inside_try (pb : PageBehavior) (initial_data : List Json)
    (err : String) (d : String → Bool) (st : St)
    (hv : pb.verifyPre = none) (hb : pb.verifyBody = Except.error err) :
    (chatgpt_verify pb initial_data d st).2 = Except.ok initial_data
    ∧ (chatgpt_verify pb initial_data d st).1.events
        = st.events ++ [⟨Msg.agentCLaunch, false⟩, ⟨Msg.verifyFailed err, true⟩] := by
  simp [chatgpt_verify, emit, hv, hb]

/-- Witness for C2 (amended) at a concrete in-`try` timeout. -/
theorem c2_verify_degrades_witness :
    (pbPlain.verifyPre = none ∧ pbPlain.verifyBody = Except.error "timeout")
    ∧ ((chatgpt_verify pbPlain [Json.null] dTrue initSt).2 = Except.ok [Json.null]
       ∧ (chatgpt_verify pbPlain [Json.null] dTrue initSt).1.events
           = initSt.events ++ [⟨Msg.agentCLaunch, false⟩, ⟨Msg.verifyFailed "timeout", true⟩]) :=
  ⟨⟨rfl, rfl⟩, c2_verify_degrades_inside_try pbPlain [Json.null] "timeout" dTrue initSt rfl rfl⟩

/-- Claim C3: when the primary extraction fails (any raised error, including a
decode error of its output) the failure is caught, logged (the `is_error`
event whose text carries the warning marker and the truncated cause), and the
secondary is attempted on the same page; when the secondary also fails the
page emits the fatal event, contributes nothing to the output, no verification
event occurs (the event list is exactly the five listed), the iteration
returns normally, and the loop continues with the next page. -/
theorem c3_total_failure_skips_page_and_continues (d : String → Bool) (i : Nat)
    (st : St) (pb : PageBehavior) (rest : List PageBehavior) (e e2 : String)
    (hp : pb.primary = Except.error e) (hs : pb.secondary = Except.error e2) :
    (pageStep d i pb st).2 = none
    ∧ (pageStep d i pb st).1.events = st.events ++
        [⟨Msg.processingPage (i + 1), false⟩, ⟨Msg.agentALaunch, false⟩,
         ⟨Msg.agentAFailed ("Gemini Browser Failed: " ++ e.take 50), true⟩,
         ⟨Msg.agentBSwitch, false⟩, ⟨Msg.fatalApiFailed e2, true⟩]
    ∧ (pageStep d i pb st).1.sent = st.sent
    ∧ runPages d i (pb :: rest) st = runPages d (i + 1) rest (pageStep d i pb st).1 := by
  refine ⟨?_, ?_, ?_, ?_⟩ <;>
    simp [pageStep, gemini_browser_extract, gemini_api_extract, emit, runPages, hp, hs]

/-- Witness for C3 at a concrete doubly-failing page. -/
theorem c3_total_failure_witness :
    (pbBothFail.primary = Except.error "login timeout"
      ∧ pbBothFail.secondary = Except.error "quota exceeded")
    ∧ ((pageStep dTrue 0 pbBothFail initSt).2 = none
       ∧ (pageStep dTrue 0 pbBothFail initSt).1.events = initSt.events ++
           [⟨Msg.processingPage 1, false⟩, ⟨Msg.agentALaunch, false⟩,
            ⟨Msg.agentAFailed ("Gemini Browser Failed: " ++ ("login timeout").take 50), true⟩,
            ⟨Msg.agentBSwitch, false⟩, ⟨Msg.fatalApiFailed "quota exceeded", true⟩]
       ∧ (pageStep dTrue 0 pbBothFail initSt).1.sent = initSt.sent
       ∧ runPages dTrue 0 [pbBothFail] initSt
           = runPages dTrue 1 [] (pageStep dTrue 0 pbBothFail initSt).1) :=
  ⟨⟨rfl, rfl⟩, c3_total_failure_skips_page_and_continues dTrue 0 initSt pbBothFail []
    "login timeout" "quota exceeded" rfl rfl⟩

/-- Claim C4: when the primary agent succeeds for a page, the secondary agent
is never invoked on that page: the iteration is entirely independent of the
secondary agent's behaviour, and no Agent-B event is added. -/
theorem c4_secondary_never_invoked (d : String → Bool) (i : Nat) (st : St)
    (pb : PageBehavior) (raw : List Json) (hp : pb.primary = Except.ok raw) :
    (∀ x y, pageStep d i { pb with secondary := x } st
        = pageStep d i { pb with secondary := y } st)
    ∧ (pageStep d i pb st).1.events.filter (fun ev => decide (ev.msg = Msg.agentBSwitch))
        = st.events.filter (fun ev => decide (ev.msg = Msg.agentBSwitch)) := by
  constructor
  · intro x y
    simp [pageStep, afterExtract, gemini_browser_extract, gemini_api_extract,
      chatgpt_verify, send_formatted_output, emit, hp]
  · cases hv : pb.verifyPre <;> cases hb : pb.verifyBody <;> cases ho : pb.outputOk <;>
      simp [pageStep, afterExtract, gemini_browser_extract, chatgpt_verify,
        send_formatted_output, emit, hp, hv, hb, ho]

/-- Witness for C4 at a concrete page whose primary agent succeeds. -/
theorem c4_secondary_never_invoked_witness :
    (pbPlain.primary = Except.ok [Json.null])
    ∧ ((∀ x y, pageStep dTrue 0 { pbPlain with secondary := x } initSt
          = pageStep dTrue 0 { pbPlain with secondary := y } initSt)
       ∧ (pageStep dTrue 0 pbPlain initSt).1.events.filter
             (fun ev => decide (ev.msg = Msg.agentBSwitch))
           = initSt.events.filter (fun ev => decide (ev.msg = Msg.agentBSwitch))) :=
  ⟨rfl, c4_secondary_never_invoked dTrue 0 initSt pbPlain [Json.null] rfl⟩

/-- Claim C5, counterexample.  The claim says the page image is released on
every exit path; but `os.remove(img_path)` (line 236) is unreachable on the
total-extraction-failure path, which leaves the loop body through `continue`
(line 228).  In this one-page run where both agents fail, `page_0.jpg` still
exists when the handler returns. -/
theorem c5_counterexample :
    (handle_document 1 1 rbOneFailingPage dTrue).1.images = [0]
    ∧ (handle_document 1 1 rbOneFailingPage dTrue).2 = none := ⟨rfl, rfl⟩

/-- Claim C5, amended: the page image is removed on the success path (the
image set is restored to what it was before the page), but on the
total-extraction-failure path the image file is not removed and outlives the
iteration. -/
theorem c5_image_released_only_on_success (d : String → Bool) (i : Nat) (st : St)
    (hni : i ∉ st.images) :
    (∀ pb raw, pb.primary = Except.ok raw → pb.verifyPre = none → pb.outputOk = true →
        (pageStep d i pb st).1.images = st.images)
    ∧ (∀ pb e e2, pb.primary = Except.error e → pb.secondary = Except.error e2 →
        (pageStep d i pb st).1.images = st.images ++ [i]) := by
  constructor
  · intro pb raw hp hv ho
    cases hb : pb.verifyBody <;>
      simp [pageStep, afterExtract, gemini_browser_extract, chatgpt_verify,
        send_formatted_output, emit, hp, hv, ho, hb, List.erase_append, hni]
  · intro pb e e2 hp hs
    simp [pageStep, gemini_browser_extract, gemini_api_extract, emit, hp, hs]

/-- Witness for C5 (amended) at page index 0 and the initial state. -/
theorem c5_image_released_witness :
    ((0 : Nat) ∉ initSt.images)
    ∧ ((∀ pb raw, pb.primary = Except.ok raw → pb.verifyPre = none → pb.outputOk = true →
          (pageStep dTrue 0 pb initSt).1.images = initSt.images)
       ∧ (∀ pb e e2, pb.primary = Except.error e → pb.secondary = Except.error e2 →
          (pageStep dTrue 0 pb initSt).1.images = initSt.images ++ [0])) :=
  ⟨by decide, c5_image_released_only_on_success dTrue 0 initSt (by decide)⟩

/-- Claim C1, counterexample.  The claim says an unexpected defect escaping
one page's processing is caught and every subsequent page is still processed;
but the `try` of `handle_document` wraps the whole page loop, so the defect
(here: the verification agent's browser launch raising on page 1) ends the
loop: page 2 is never processed (no second page-header event, and the second
page's records are never sent), even though the run had a second page whose
agents would have succeeded. -/
theorem c1_counterexample :
    (Msg.processingPage 2 ∉
      (handle_document 1 1 rbCrashThenPage dTrue).1.events.map Event.msg)
    ∧ (handle_document 1 1 rbCrashThenPage dTrue).1.sent = []
    ∧ (handle_document 1 1 rbCrashThenPage dTrue).1.events.map Event.msg
        = [Msg.pdfReceived, Msg.processingPage 1, Msg.agentALaunch, Msg.agentALoginOk,
           Msg.extractionSourceWeb, Msg.agentCLaunch,
           Msg.criticalError "BrowserType.launch: executable not found"] := by
  exact ⟨by decide, rfl, rfl⟩

/-- Claim C1, amended: an uncaught exception escaping a page's processing
(here: a verification-setup failure on the first page) is caught by the
handler's blanket `except`, an error event carrying the diagnostic detail is
emitted, the handler returns normally and the temporary PDF is removed — but
the remaining pages are not processed: whatever `rest` contains, the run ends
with the critical-error event and no records are ever sent. -/
theorem c1_defect_caught_logged_but_aborts (a : Int) (d : String → Bool)
    (pb : PageBehavior) (rest : List PageBehavior) (l : List Json) (err : String)
    (hp : pb.primary = Except.ok l) (hv : pb.verifyPre = some err) :
    (handle_document a a ⟨true, Except.ok (pb :: rest)⟩ d).2 = none
    ∧ (handle_document a a ⟨true, Except.ok (pb :: rest)⟩ d).1.events.map Event.msg
        = [Msg.pdfReceived, Msg.processingPage 1, Msg.agentALaunch, Msg.agentALoginOk,
           Msg.extractionSourceWeb, Msg.agentCLaunch, Msg.criticalError err]
    ∧ (handle_document a a ⟨true, Except.ok (pb :: rest)⟩ d).1.sent = []
    ∧ (handle_document a a ⟨true, Except.ok (pb :: rest)⟩ d).1.pdf = false := by
  refine ⟨?_, ?_, ?_, ?_⟩ <;>
    simp [handle_document, runPages, pageStep, afterExtract, gemini_browser_extract,
      chatgpt_verify, emit, initSt, hp, hv]

/-- Witness for C1 (amended) at the concrete crashing page. -/
theorem c1_defect_caught_witness :
    (pbVerifyCrash.primary = Except.ok []
      ∧ pbVerifyCrash.verifyPre = some "BrowserType.launch: executable not found")
    ∧ ((handle_document 1 1 ⟨true, Except.ok (pbVerifyCrash :: [pbPlain])⟩ dTrue).2 = none
       ∧ (handle_document 1 1 ⟨true, Except.ok (pbVerifyCrash :: [pbPlain])⟩
             dTrue).1.events.map Event.msg
           = [Msg.pdfReceived, Msg.processingPage 1, Msg.agentALaunch, Msg.agentALoginOk,
              Msg.extractionSourceWeb, Msg.agentCLaunch,
              Msg.criticalError "BrowserType.launch: executable not found"]
       ∧ (handle_document 1 1 ⟨true, Except.ok (pbVerifyCrash :: [pbPlain])⟩ dTrue).1.sent = []
       ∧ (handle_document 1 1 ⟨true, Except.ok (pbVerifyCrash :: [pbPlain])⟩ dTrue).1.pdf
           = false) :=
  ⟨⟨rfl, rfl⟩, c1_defect_caught_logged_but_aborts 1 dTrue pbVerifyCrash [pbPlain] []
    "BrowserType.launch: executable not found" rfl rfl⟩

/-- Claim C7: on a run whose pages are free of unexpected defects, the run
completes normally, the aggregated output is exactly the in-order
concatenation of the per-page contributions, the page-header events appear in
exact document order 1..N, and a page whose primary failed and secondary
succeeded contributes exactly the (possibly verification-adjusted) secondary
output — never anything of the primary. -/
theorem c7_order_preserved_and_fallback_output (a : Int) (d : String → Bool)
    (pbs : List PageBehavior) (h : ∀ pb ∈ pbs, pageNormal pb) :
    (handle_document a a ⟨true, Except.ok pbs⟩ d).2 = none
    ∧ (handle_document a a ⟨true, Except.ok pbs⟩ d).1.sent = pbs.filterMap pageRecords
    ∧ ((handle_document a a ⟨true, Except.ok pbs⟩ d).1.events.map Event.msg).filter
          isPageMark
        = (List.range pbs.length).map (fun j => Msg.processingPage (j + 1))
    ∧ ∀ pb e l2, pb.primary = Except.error e → pb.secondary = Except.ok l2 →
        pageRecords pb = some (verifyOut pb l2) := by
  obtain ⟨g2, g3, g4⟩ :=
    runPages_normal d pbs 0 { emit d initSt Msg.pdfReceived false with pdf := true } h
  rcases hA : runPages d 0 pbs { emit d initSt Msg.pdfReceived false with pdf := true }
    with ⟨s2, o⟩
  rw [hA] at g2 g3 g4
  simp only at g2 g3 g4
  subst g2
  have hd : handle_document a a ⟨true, Except.ok pbs⟩ d
      = ({ emit d s2 Msg.allPagesDone false with pdf := false }, none) := by
    simp [handle_document, hA]
  rw [hd]
  refine ⟨rfl, ?_, ?_, ?_⟩
  · simp only [emit] at g3 ⊢
    simp [g3, initSt, emit]
  · simp only [emit, initSt] at g4 ⊢
    simp [g4, isPageMark, emit, initSt]
  · intro pb e l2 hp hs
    simp [pageRecords, hp, hs]

/-- Witness for C7 at a concrete two-page run (page 1 primary succeeds,
page 2 falls back to the secondary). -/
theorem c7_order_preserved_witness :
    (∀ pb ∈ [pbPlain, pbBothFail], pageNormal pb)
    ∧ ((handle_document 1 1 ⟨true, Except.ok [pbPlain, pbBothFail]⟩ dTrue).2 = none
       ∧ (handle_document 1 1 ⟨true, Except.ok [pbPlain, pbBothFail]⟩ dTrue).1.sent
           = [pbPlain, pbBothFail].filterMap pageRecords
       ∧ ((handle_document 1 1 ⟨true, Except.ok [pbPlain, pbBothFail]⟩
             dTrue).1.events.map Event.msg).filter isPageMark
           = (List.range ([pbPlain, pbBothFail].length)).map
               (fun j => Msg.processingPage (j + 1))
       ∧ ∀ pb e l2, pb.primary = Except.error e → pb.secondary = Except.ok l2 →
           pageRecords pb = some (verifyOut pb l2)) :=
  ⟨by simp [pageNormal, pbPlain, pbBothFail],
    c7_order_preserved_and_fallback_output 1 dTrue [pbPlain, pbBothFail]
      (by simp [pageNormal, pbPlain, pbBothFail])⟩

/-- Claim C8: a document update from any sender other than the single
configured `ALLOWED_USER` is silently ignored — the handler returns at once
with no events, no record output, no files and no exception (`initSt`), for
every run environment; a request from the authorized identity is accepted
and processed (its first sink event is the receipt log, on every path). -/
theorem c8_unauthorized_silently_ignored (u a : Int) (rb : RunBehavior)
    (d : String → Bool) (h : u ≠ a) :
    handle_document u a rb d = (initSt, none)
    ∧ ∀ (rb2 : RunBehavior) (d2 : String → Bool),
        ((handle_document a a rb2 d2).1.events.map Event.msg).head?
          = some Msg.pdfReceived := by
  constructor
  · simp [handle_document, h]
  · intro rb2 d2
    cases hdl : rb2.downloadOk with
    | false => simp [handle_document, hdl, emit, initSt]
    | true =>
      rcases hcv : rb2.conversion with e | pbs
      · simp [handle_document, hdl, hcv, emit, initSt]
      · obtain ⟨t, ht⟩ := runPages_events_extend d2 pbs 0
          { emit d2 initSt Msg.pdfReceived false with pdf := true }
        rcases hA : runPages d2 0 pbs
            { emit d2 initSt Msg.pdfReceived false with pdf := true } with ⟨s2, o⟩
        rw [hA] at ht
        simp only at ht
        simp [emit, initSt] at hA
        cases o <;> simp [handle_document, hdl, hcv, hA, emit, initSt, ht]

/-- Witness for C8 with sender 0 against allowed identity 1. -/
theorem c8_unauthorized_witness :
    ((0 : Int) ≠ 1)
    ∧ (handle_document 0 1 rbEmpty dTrue = (initSt, none)
       ∧ ∀ (rb2 : RunBehavior) (d2 : String → Bool),
           ((handle_document 1 1 rb2 d2).1.events.map Event.msg).head?
             = some Msg.pdfReceived) :=
  ⟨by decide, c8_unauthorized_silently_ignored 0 1 rbEmpty dTrue (by decide)⟩

/-- Claim C9: sink-delivery failures never alter the run: for any two
delivery environments the handler produces the same events, the same record
output, the same files and the same exception behaviour (only the recorded
per-event delivery outcomes may differ), and `send_log` catches a raised
delivery failure internally and still returns normally. -/
theorem c9_sink_failures_never_affect_run (u a : Int) (rb : RunBehavior)
    (d d' : String → Bool) :
    sameCore (handle_document u a rb d).1 (handle_document u a rb d').1
    ∧ (handle_document u a rb d).2 = (handle_document u a rb d').2
    ∧ ∀ (df : String → Bool) (m : String) (b : Bool) (e : String),
        send_log_body df m b = Except.error e → send_log df m b = false := by
  refine ⟨(handle_document_core u a rb d d').1, (handle_document_core u a rb d d').2, ?_⟩
  intro df m b e hb
  simp [send_log, hb]

/-- Claim C10: the temporary PDF never survives the handler: on every path —
unauthorized (never downloaded), download failure (the handler re-raises
before the file exists), page-conversion failure, a defect aborting the page
loop, or normal completion — `temp.pdf` is absent when `handle_document`
finishes (the `finally` removes it wherever it was created). -/
theorem c10_temp_pdf_always_removed (u a : Int) (rb : RunBehavior)
    (d : String → Bool) :
    (handle_document u a rb d).1.pdf = false := by
  by_cases hu : u ≠ a
  · simp [handle_document, hu, initSt]
  · cases hdl : rb.downloadOk with
    | false => simp [handle_document, hu, hdl, emit, initSt]
    | true =>
      rcases hcv : rb.conversion with e | pbs
      · simp [handle_document, hu, hdl, hcv]
      · rcases hA : runPages d 0 pbs
            { emit d initSt Msg.pdfReceived false with pdf := true } with ⟨s2, o⟩
        simp [emit, initSt] at hA
        cases o <;> simp [handle_document, hu, hdl, hcv, hA, emit, initSt]
